import Mathlib

/-!
Verification of the API admission-control and validation pipeline of the
family-finance-tracker repository: the rate-limiting middleware and the
input-validation middleware, shallowly embedded from the TypeScript source
(module middleware/rate-limit and module middleware/validation).

Machine integers of the source (millisecond timestamps, request counts,
configured limits) are modelled as Nat; the in-memory Map of the store is
modelled extensionally as a function from keys to optional records.
-/

namespace RateLimit

/-- Embeds interface RequestRecord: per-client request tracking data. -/
structure RequestRecord where
  count : Nat
  resetTime : Nat
  deriving DecidableEq, Repr

/-- The in-memory requestStore Map, modelled extensionally: a key is either
absent (none) or bound to a RequestRecord. -/
def Store : Type := String → Option RequestRecord

/-- Embeds interface RateLimitConfig after merging with DEFAULT_CONFIG, so
every field is present. The source also allows a custom keyGenerator; the
middleware below is stated on the already-resolved client key, which covers
both the default getClientIP resolution and a custom generator. -/
structure RateLimitConfig where
  maxRequests : Nat
  windowMs : Nat
  message : String
  statusCode : Nat
  skipSuccessfulRequests : Bool
  deriving DecidableEq, Repr

/-- The DEFAULT_CONFIG constant of the source. -/
def DEFAULT_CONFIG : RateLimitConfig :=
  { maxRequests := 100
    windowMs := 15 * 60 * 1000
    message := "Too many requests, please try again later."
    statusCode := 429
    skipSuccessfulRequests := false }

/-- The 429-style JSON response built by the middleware when the limit is
exceeded: status, body fields, and headers. The X-RateLimit-Reset header is
kept as the millisecond instant that the source serializes with
toISOString. -/
structure RateLimitResponse where
  status : Nat
  error : String
  retryAfter : Nat
  retryAfterHeader : String
  limitHeader : String
  remainingHeader : String
  resetTimeMs : Nat
  deriving DecidableEq, Repr

/-- Embeds cleanupExpiredEntries: removes every record whose resetTime lies
strictly in the past. -/
def cleanupExpiredEntries (now : Nat) (store : Store) : Store :=
  fun k =>
    match store k with
    | some r => if now > r.resetTime then none else some r
    | none => none

/-- The loopback/unknown development bypass condition tested at the top of
rateLimitMiddleware. -/
def loopbackBypass (env clientKey : String) : Bool :=
  env == "development" &&
    (clientKey == "127.0.0.1" || clientKey == "::1" || clientKey == "unknown")

/-- Embeds the rateLimitMiddleware closure returned by createRateLimiter,
with the merged finalConfig as first argument and the shared store passed
explicitly. Returns the Continue/Block outcome (none is Continue, mirroring
the null return of the source) together with the store after the call.
Math.ceil of the nonnegative quotient (resetTime - now) / 1000 is written
with Nat arithmetic. -/
def rateLimitMiddleware (cfg : RateLimitConfig) (env clientKey : String)
    (now : Nat) (store : Store) : Option RateLimitResponse × Store :=
  if loopbackBypass env clientKey then
    (none, store)
  else
    let record0 : RequestRecord :=
      match store clientKey with
      | some r =>
          if now > r.resetTime then
            { count := 0, resetTime := now + cfg.windowMs }
          else r
      | none => { count := 0, resetTime := now + cfg.windowMs }
    let record : RequestRecord := { record0 with count := record0.count + 1 }
    let store1 : Store := fun k => if k == clientKey then some record else store k
    if record.count > cfg.maxRequests then
      let retryAfter := (record.resetTime - now + 999) / 1000
      (some { status := cfg.statusCode
              error := cfg.message
              retryAfter := retryAfter
              retryAfterHeader := toString retryAfter
              limitHeader := toString cfg.maxRequests
              remainingHeader := "0"
              resetTimeMs := record.resetTime }, store1)
    else
      let store2 : Store :=
        if record.count % 100 == 0 then cleanupExpiredEntries now store1 else store1
      (none, store2)

/-- Embeds resetRateLimit: deletes the record of one client key. -/
def resetRateLimit (store : Store) (clientKey : String) : Store :=
  fun k => if k == clientKey then none else store k

/-- Embeds getRateLimitStatus: the stored record of a key, or none. -/
def getRateLimitStatus (store : Store) (clientKey : String) : Option RequestRecord :=
  store clientKey

/-- Embeds clearAllRateLimits: empties the store. -/
def clearAllRateLimits : Store := fun _ => none

/-- Runs the middleware over a list of request instants for one fixed client
key, threading the store, and collects the per-request outcomes in order. -/
def runRequests (cfg : RateLimitConfig) (env clientKey : String) :
    List Nat → Store → List (Option RateLimitResponse) × Store
  | [], store => ([], store)
  | t :: ts, store =>
      let step := rateLimitMiddleware cfg env clientKey t store
      let rest := runRequests cfg env clientKey ts step.2
      (step.1 :: rest.1, rest.2)

end RateLimit

namespace Validation

/-- JSON values, the possible results of a successful req.json() call. -/
inductive Json where
  | null
  | bool (b : Bool)
  | num (n : Int)
  | str (s : String)
  | arr (elems : List Json)
  | obj (fields : List (String × Json))

/-- Behaviour of the awaited req.json() call: it either produces a JSON
value or throws (the payload is not parseable JSON). -/
inductive BodyParse where
  | ok (j : Json)
  | throws

/-- One issue inside a ZodError: a path of keys and a message. -/
structure ZodIssue where
  path : List String
  message : String
  deriving DecidableEq, Repr

/-- Behaviour of schema.parse on an input: a typed success, a thrown
ZodError carrying the full list of issues, or some other thrown exception. -/
inductive ZodParse (T : Type) where
  | ok (t : T)
  | zodError (issues : List ZodIssue)
  | throws

/-- One entry of the details array of a 400 response: dotted-path field and
message, as built by err.path.join and err.message. -/
structure FieldError where
  field : String
  message : String
  deriving DecidableEq, Repr

/-- A JSON error response of the validation module: status plus the body
fields error and optional details. -/
structure ApiResponse where
  status : Nat
  error : String
  details : Option (List FieldError)
  deriving DecidableEq, Repr

/-- The discriminated union returned by the validator closures: either an
error with a prepared response, or validated typed data. -/
inductive ValidatorResult (T : Type) where
  | errorResponse (r : ApiResponse)
  | valid (t : T)

/-- The model of an incoming NextRequest, restricted to the parts this
pipeline reads: the body-parse behaviour, the declared content-length
header, the actual body size on the wire, and the query parameters. -/
structure HttpRequest where
  jsonBody : BodyParse
  contentLength : Option String
  bodyByteSize : Nat
  query : List (String × String)

/-- The error.errors.map step shared by both validators: each Zod issue
becomes a FieldError with the path joined by dots. -/
def formatZodErrors (issues : List ZodIssue) : List FieldError :=
  issues.map fun i => { field := String.intercalate "." i.path, message := i.message }

/-- Embeds the async validate closure returned by createValidator. The
inner try/catch around req.json() yields the 400 invalid-JSON response; the
outer catch distinguishes a ZodError, which yields the 400 with details,
from any other exception, which yields the generic 500. -/
def createValidator {T : Type} (schema : Json → ZodParse T) (req : HttpRequest) :
    ValidatorResult T :=
  match req.jsonBody with
  | .throws =>
      .errorResponse { status := 400, error := "Invalid JSON in request body", details := none }
  | .ok body =>
      match schema body with
      | .ok t => .valid t
      | .zodError issues =>
          .errorResponse
            { status := 400, error := "Validation failed", details := some (formatZodErrors issues) }
      | .throws =>
          .errorResponse { status := 500, error := "Internal validation error", details := none }

/-- Whitespace as trimmed by the JavaScript string-to-number conversions. -/
def isJsWhitespace (c : Char) : Bool :=
  c == ' ' || c == '\t' || c == '\n' || c == '\r' || c == '\x0b' || c == '\x0c' ||
    c == ' ' || c == '﻿'

/-- Numeric value of a digit character in radices up to 16. -/
def digitVal (c : Char) : Nat :=
  if c.isDigit then c.toNat - '0'.toNat
  else if 'a' ≤ c && c ≤ 'f' then c.toNat - 'a'.toNat + 10
  else if 'A' ≤ c && c ≤ 'F' then c.toNat - 'A'.toNat + 10
  else 0

/-- Whether a character is a digit of the given radix (2, 8, 10 or 16). -/
def isRadixDigit (base : Nat) (c : Char) : Bool :=
  (c.isDigit || ('a' ≤ c && c ≤ 'f') || ('A' ≤ c && c ≤ 'F')) && digitVal c < base

/-- Value of a digit string in the given radix. -/
def digitsToNat (base : Nat) (ds : List Char) : Nat :=
  ds.foldl (fun a c => a * base + digitVal c) 0

/-- A whole digit string in the given radix, or none. -/
def parseRadixNat (base : Nat) (cs : List Char) : Option Nat :=
  if cs ≠ [] && cs.all (isRadixDigit base) then some (digitsToNat base cs) else none

/-- The value of a JavaScript number that is not NaN: a finite rational or
one of the two infinities. Floating-point rounding is not modelled; only
the NaN-or-not distinction and the exact mathematical value are used. -/
inductive JsNumVal where
  | finite (q : ℚ)
  | posInf
  | negInf
  deriving DecidableEq, Repr

/-- An unsigned decimal literal: digits, optional fraction digits, optional
exponent part; none when the text is not exactly such a literal. -/
def parseDecimalCore (cs : List Char) : Option ℚ :=
  let intPart := cs.takeWhile Char.isDigit
  let rest1 := cs.drop intPart.length
  let contFrac : List Char → List Char → Option ℚ := fun ip rest =>
    let fracPart := rest.takeWhile Char.isDigit
    let rest2 := rest.drop fracPart.length
    if ip.isEmpty && fracPart.isEmpty then none
    else
      let mantissa : ℚ :=
        (digitsToNat 10 ip : ℚ) + (digitsToNat 10 fracPart : ℚ) / (10 : ℚ) ^ fracPart.length
      match rest2 with
      | [] => some mantissa
      | e :: rest3 =>
          if e == 'e' || e == 'E' then
            let signRest : Bool × List Char :=
              match rest3 with
              | '+' :: r => (true, r)
              | '-' :: r => (false, r)
              | r => (true, r)
            if signRest.2 ≠ [] && signRest.2.all Char.isDigit then
              let k := digitsToNat 10 signRest.2
              some (if signRest.1 then mantissa * (10 : ℚ) ^ k else mantissa / (10 : ℚ) ^ k)
            else none
          else none
  match rest1 with
  | '.' :: rest2 => contFrac intPart rest2
  | _ => if intPart.isEmpty then none else contFrac intPart ('.' :: rest1).tail

/-- A decimal literal with an optional sign, or a signed Infinity. -/
def jsSignedDecimal (cs : List Char) : Option JsNumVal :=
  let signRest : Bool × List Char :=
    match cs with
    | '+' :: r => (true, r)
    | '-' :: r => (false, r)
    | r => (true, r)
  if signRest.2 == "Infinity".toList then
    some (if signRest.1 then JsNumVal.posInf else JsNumVal.negInf)
  else
    (parseDecimalCore signRest.2).map fun q =>
      JsNumVal.finite (if signRest.1 then q else -q)

/-- Embeds the JavaScript Number conversion on strings, as used by the
isNaN(Number(value)) test: trim whitespace, empty means zero, unsigned
hex, octal and binary prefixes, otherwise an optionally signed decimal
literal or Infinity; none models NaN. -/
def jsNumberOfString (s : String) : Option JsNumVal :=
  let cs := ((s.toList.dropWhile isJsWhitespace).reverse.dropWhile isJsWhitespace).reverse
  match cs with
  | [] => some (JsNumVal.finite 0)
  | '0' :: c :: rest =>
      if c == 'x' || c == 'X' then (parseRadixNat 16 rest).map fun n => JsNumVal.finite n
      else if c == 'o' || c == 'O' then (parseRadixNat 8 rest).map fun n => JsNumVal.finite n
      else if c == 'b' || c == 'B' then (parseRadixNat 2 rest).map fun n => JsNumVal.finite n
      else jsSignedDecimal cs
  | _ => jsSignedDecimal cs

/-- A value of the loosely-typed params record built from the query. -/
inductive QueryVal where
  | num (v : JsNumVal)
  | bool (b : Bool)
  | str (s : String)
  deriving DecidableEq, Repr

/-- Embeds the per-value branch of the searchParams.forEach loop: a value
whose Number conversion is not NaN becomes that number; otherwise the exact
strings true and false become booleans; every other value stays a string. -/
def coerceQueryValue (value : String) : QueryVal :=
  match jsNumberOfString value with
  | some n => .num n
  | none =>
      if value == "true" then .bool true
      else if value == "false" then .bool false
      else .str value

/-- The whole params record handed to schema.parse by the query validator. -/
def coerceQueryParams (query : List (String × String)) : List (String × QueryVal) :=
  query.map fun kv => (kv.1, coerceQueryValue kv.2)

/-- Embeds validateQueryParams: coerce the flat string query parameters,
then run schema.parse on the coerced record, formatting a ZodError into the
400 response with details and any other exception into the generic 500. -/
def validateQueryParams {T : Type} (schema : List (String × QueryVal) → ZodParse T)
    (req : HttpRequest) : ValidatorResult T :=
  match schema (coerceQueryParams req.query) with
  | .ok t => .valid t
  | .zodError issues =>
      .errorResponse
        { status := 400, error := "Invalid query parameters", details := some (formatZodErrors issues) }
  | .throws =>
      .errorResponse { status := 500, error := "Internal validation error", details := none }

end Validation


namespace Validation

/-- An argument of validatePagination: a number, a string, or undefined.
Numbers are modelled as integers; the fractional and NaN corner cases of
floating point do not occur on the pagination inputs the claims quantify
over, and a NaN number argument is falsy exactly like undefined. -/
inductive JsInput where
  | num (n : Int)
  | str (s : String)
  | undef
  deriving DecidableEq, Repr

/-- JavaScript truthiness on the input type: zero, the empty string and
undefined are falsy. -/
def truthy : JsInput → Bool
  | .num n => n != 0
  | .str s => s != ""
  | .undef => false

/-- The short-circuit x or-else d on inputs, as in page or-else the
string 1. -/
def jsOr (x d : JsInput) : JsInput := if truthy x then x else d

/-- The String(x) conversion on the input type. -/
def jsStringOf : JsInput → String
  | .num n => toString n
  | .str s => s
  | .undef => "undefined"

/-- Embeds parseInt(s, 10): skip leading whitespace, read an optional
sign, then take the longest prefix of decimal digits; none models NaN. -/
def parseIntTen (s : String) : Option Int :=
  let cs := s.toList.dropWhile isJsWhitespace
  let signRest : Bool × List Char :=
    match cs with
    | '+' :: r => (true, r)
    | '-' :: r => (false, r)
    | r => (true, r)
  let ds := signRest.2.takeWhile Char.isDigit
  if ds.isEmpty then none
  else some (if signRest.1 then (digitsToNat 10 ds : Int) else -(digitsToNat 10 ds : Int))

/-- The or-else applied to a parseInt result: NaN and zero both fall back
to the default, mirroring parseInt(...) or-else d. -/
def numOr (o : Option Int) (d : Int) : Int :=
  match o with
  | some n => if n = 0 then d else n
  | none => d

/-- The record returned by validatePagination. -/
structure PaginationResult where
  page : Int
  limit : Int
  offset : Int
  deriving DecidableEq, Repr

/-- Embeds validatePagination: page and limit are parsed from the
stringified inputs with defaults 1 and 10, page is floored at 1, limit is
floored at 1 and capped at 100, and offset is computed from both. -/
def validatePagination (page limit : JsInput) : PaginationResult :=
  let pageNum : Int := max 1 (numOr (parseIntTen (jsStringOf (jsOr page (.str "1")))) 1)
  let limitNum : Int :=
    min 100 (max 1 (numOr (parseIntTen (jsStringOf (jsOr limit (.str "10")))) 10))
  { page := pageNum, limit := limitNum, offset := (pageNum - 1) * limitNum }

/-- The 413 response body built by the size middleware: the maxSize field
renders maxSizeBytes / 1024 with toFixed(0), which rounds to the nearest
integer with ties away from zero; on nonnegative integers divided by 1024
this is the Nat computation below. -/
structure SizeResponse where
  status : Nat
  error : String
  maxSize : String
  deriving DecidableEq, Repr

/-- Embeds the closure returned by validateRequestSize: a missing or empty
content-length header is falsy and skips the check; otherwise the header is
parsed with parseInt and compared against maxSizeBytes, a NaN comparison
being false. -/
def validateRequestSize (maxSizeBytes : Nat) (req : HttpRequest) : Option SizeResponse :=
  match req.contentLength with
  | none => none
  | some s =>
      if s == "" then none
      else
        match parseIntTen s with
        | some n =>
            if n > (maxSizeBytes : Int) then
              some { status := 413
                     error := "Request payload too large"
                     maxSize := toString ((maxSizeBytes + 512) / 1024) ++ "KB" }
            else none
        | none => none

/-- Embeds combineValidations: run the validation functions in order and
return the first non-null result, or null when all pass. The source awaits
each possibly-async validation; the sequential loop is the same. -/
def combineValidations {Req Resp : Type} :
    List (Req → Option Resp) → Req → Option Resp
  | [], _ => none
  | v :: vs, req =>
      match v req with
      | some r => some r
      | none => combineValidations vs req

end Validation


namespace RateLimit

/-- The record stored for the client key by one non-bypassed middleware
call, as a function of the previously stored record: a fresh window when
the key is absent or expired, otherwise the old record with the count
incremented. -/
def nextRecord (cfg : RateLimitConfig) (now : Nat) : Option RequestRecord → RequestRecord
  | some r =>
      if now > r.resetTime then { count := 1, resetTime := now + cfg.windowMs }
      else { count := r.count + 1, resetTime := r.resetTime }
  | none => { count := 1, resetTime := now + cfg.windowMs }

/-- The block response the middleware builds from the stored record when
the count exceeds the limit. -/
def blockResponse (cfg : RateLimitConfig) (now : Nat) (r : RequestRecord) :
    RateLimitResponse :=
  { status := cfg.statusCode
    error := cfg.message
    retryAfter := (r.resetTime - now + 999) / 1000
    retryAfterHeader := toString ((r.resetTime - now + 999) / 1000)
    limitHeader := toString cfg.maxRequests
    remainingHeader := "0"
    resetTimeMs := r.resetTime }

end RateLimit

namespace RateLimit

theorem nextRecord_resetTime_ge (cfg : RateLimitConfig) (now : Nat)
    (prev : Option RequestRecord) (h : ∀ r, prev = some r → ¬ now > r.resetTime) :
    ¬ now > (nextRecord cfg now prev).resetTime := by
  match prev with
  | none => simp [nextRecord]
  | some r =>
      have hr := h r rfl
      simp [nextRecord, if_neg hr]
      omega

/-- The Continue/Block outcome of a non-bypassed call is determined by the
count of the next record: Block with the blockResponse when it exceeds the
limit, Continue otherwise. -/
theorem middleware_fst (cfg : RateLimitConfig) (env clientKey : String) (now : Nat)
    (store : Store) (hb : loopbackBypass env clientKey = false) :
    (rateLimitMiddleware cfg env clientKey now store).1 =
      (if (nextRecord cfg now (store clientKey)).count > cfg.maxRequests then
        some (blockResponse cfg now (nextRecord cfg now (store clientKey)))
      else none) := by
  unfold rateLimitMiddleware
  rw [hb]
  simp only [Bool.false_eq_true, if_false]
  match hs : store clientKey with
  | none =>
      by_cases hc : 0 + 1 > cfg.maxRequests <;>
        simp [nextRecord, blockResponse, hc]
  | some r =>
      by_cases he : now > r.resetTime
      · by_cases hc : 0 + 1 > cfg.maxRequests <;>
          simp [nextRecord, blockResponse, he, hc]
      · by_cases hc : r.count + 1 > cfg.maxRequests <;>
          simp [nextRecord, blockResponse, he, hc]

/-- After a non-bypassed call, the stored record of the client key is
exactly the next record: the periodic cleanup never removes it because its
reset time is not in the past. -/
theorem middleware_snd_key (cfg : RateLimitConfig) (env clientKey : String) (now : Nat)
    (store : Store) (hb : loopbackBypass env clientKey = false) :
    (rateLimitMiddleware cfg env clientKey now store).2 clientKey =
      some (nextRecord cfg now (store clientKey)) := by
  unfold rateLimitMiddleware
  rw [hb]
  simp only [Bool.false_eq_true, if_false]
  match hs : store clientKey with
  | none =>
      by_cases hc : 0 + 1 > cfg.maxRequests <;>
      by_cases hm : (0 + 1) % 100 = 0 <;>
        (simp [nextRecord, cleanupExpiredEntries, hc, hm]; try omega)
  | some r =>
      by_cases he : now > r.resetTime
      · by_cases hc : 0 + 1 > cfg.maxRequests <;>
        by_cases hm : (0 + 1) % 100 = 0 <;>
          (simp [nextRecord, cleanupExpiredEntries, he, hc, hm]; try omega)
      · by_cases hc : r.count + 1 > cfg.maxRequests <;>
        by_cases hm : (r.count + 1) % 100 = 0 <;>
          (simp [nextRecord, cleanupExpiredEntries, he, hc, hm]; try omega)

end RateLimit


namespace RateLimit

theorem runRequests_nil (cfg : RateLimitConfig) (env clientKey : String) (store : Store) :
    runRequests cfg env clientKey [] store = ([], store) := rfl

theorem runRequests_cons (cfg : RateLimitConfig) (env clientKey : String)
    (t : Nat) (ts : List Nat) (store : Store) :
    runRequests cfg env clientKey (t :: ts) store =
      ((rateLimitMiddleware cfg env clientKey t store).1 ::
        (runRequests cfg env clientKey ts (rateLimitMiddleware cfg env clientKey t store).2).1,
       (runRequests cfg env clientKey ts (rateLimitMiddleware cfg env clientKey t store).2).2) :=
  rfl

theorem runRequests_append (cfg : RateLimitConfig) (env clientKey : String)
    (ts1 ts2 : List Nat) (store : Store) :
    runRequests cfg env clientKey (ts1 ++ ts2) store =
      ((runRequests cfg env clientKey ts1 store).1 ++
        (runRequests cfg env clientKey ts2 (runRequests cfg env clientKey ts1 store).2).1,
       (runRequests cfg env clientKey ts2 (runRequests cfg env clientKey ts1 store).2).2) := by
  induction ts1 generalizing store with
  | nil => simp [runRequests]
  | cons t ts ih => simp [runRequests_cons, ih]

/-- While a live window holds count c and all request instants stay at or
before its reset time, a run of k further requests with c + k within the
limit returns Continue k times and leaves the count at c + k. -/
theorem runRequests_under_limit (cfg : RateLimitConfig) (env clientKey : String)
    (hb : loopbackBypass env clientKey = false) :
    ∀ (ts : List Nat) (store : Store) (c R : Nat),
      store clientKey = some { count := c, resetTime := R } →
      (∀ t ∈ ts, ¬ t > R) →
      c + ts.length ≤ cfg.maxRequests →
      (runRequests cfg env clientKey ts store).1 = List.replicate ts.length none ∧
      (runRequests cfg env clientKey ts store).2 clientKey =
        some { count := c + ts.length, resetTime := R } := by
  intro ts
  induction ts with
  | nil =>
      intro store c R hs _ _
      simpa [runRequests] using hs
  | cons t ts ih =>
      intro store c R hs hts hle
      have ht : ¬ t > R := hts t (by simp)
      have hfst := middleware_fst cfg env clientKey t store hb
      have hsnd := middleware_snd_key cfg env clientKey t store hb
      rw [hs] at hfst hsnd
      simp only [nextRecord, if_neg ht] at hfst hsnd
      have hcount : ¬ (c + 1 > cfg.maxRequests) := by
        simp only [List.length_cons] at hle; omega
      rw [if_neg hcount] at hfst
      obtain ⟨h1, h2⟩ :=
        ih (rateLimitMiddleware cfg env clientKey t store).2 (c + 1) R hsnd
          (fun u hu => hts u (by simp [hu]))
          (by simp only [List.length_cons] at hle; omega)
      refine ⟨?_, ?_⟩
      · simp [runRequests_cons, hfst, h1, List.replicate_succ]
      · rw [runRequests_cons]
        simpa [Nat.add_assoc, Nat.add_comm 1 ts.length] using h2

end RateLimit


namespace RateLimit

/-- C1 counterexample: the claim asserts that the over-limit response of
every policy with positive maxRequests and windowMs has status 429, but the
middleware returns the statusCode of the policy. A policy with maxRequests
1, windowMs 1000 and statusCode 418 blocks the second request of a fresh
key with status 418, not 429. -/
theorem rateLimit_block_status_not_always_429 :
    (0 : Nat) <
        ({ maxRequests := 1, windowMs := 1000, message := "m", statusCode := 418,
           skipSuccessfulRequests := false } : RateLimitConfig).maxRequests ∧
    (0 : Nat) <
        ({ maxRequests := 1, windowMs := 1000, message := "m", statusCode := 418,
           skipSuccessfulRequests := false } : RateLimitConfig).windowMs ∧
    ∃ resp : RateLimitResponse,
      (runRequests
          { maxRequests := 1, windowMs := 1000, message := "m", statusCode := 418,
            skipSuccessfulRequests := false }
          "production" "203.0.113.9" [0, 0] clearAllRateLimits).1 =
        [none, some resp] ∧ resp.status ≠ 429 := by
  refine ⟨by decide, by decide, ?_⟩
  refine ⟨{ status := 418, error := "m", retryAfter := 1, retryAfterHeader := "1",
            limitHeader := "1", remainingHeader := "0", resetTimeMs := 1000 }, ?_, by decide⟩
  rfl

/-- C1 (amended): for every policy with maxRequests M greater than 0 and
windowMs W greater than 0 and every fixed client key with no stored window,
the first M requests arriving within the window opened by the first request
all return Continue, and an additional request strictly within that window
returns Block carrying the statusCode of the policy (429 for the default
and for all preset policies of the source), a body with the policy message
and retryAfter, and retryAfter greater than 0. Stated outside development
mode, where the loopback bypass is inert. -/
theorem rateLimit_window_admits_then_blocks
    (cfg : RateLimitConfig) (key : String) (store : Store)
    (t0 : Nat) (ts : List Nat) (tb : Nat)
    (hM : 0 < cfg.maxRequests) (hW : 0 < cfg.windowMs)
    (habs : store key = none)
    (hlen : (t0 :: ts).length = cfg.maxRequests)
    (hts : ∀ t ∈ ts, t0 ≤ t ∧ t < t0 + cfg.windowMs)
    (htb0 : t0 ≤ tb) (htb : tb < t0 + cfg.windowMs) :
    ∃ resp : RateLimitResponse,
      (runRequests cfg "production" key (t0 :: (ts ++ [tb])) store).1 =
        List.replicate cfg.maxRequests none ++ [some resp] ∧
      resp.status = cfg.statusCode ∧ resp.error = cfg.message ∧ 0 < resp.retryAfter := by
  have hb : loopbackBypass "production" key = false := by
    simp [loopbackBypass]
  have hfst0 := middleware_fst cfg "production" key t0 store hb
  have hsnd0 := middleware_snd_key cfg "production" key t0 store hb
  rw [habs] at hfst0 hsnd0
  simp only [nextRecord] at hfst0 hsnd0
  rw [if_neg (by omega)] at hfst0
  obtain ⟨hmid1, hmid2⟩ :=
    runRequests_under_limit cfg "production" key hb ts
      (rateLimitMiddleware cfg "production" key t0 store).2 1 (t0 + cfg.windowMs) hsnd0
      (fun t ht => by have := hts t ht; omega)
      (by simp only [List.length_cons] at hlen; omega)
  have hfstb :=
    middleware_fst cfg "production" key tb
      (runRequests cfg "production" key ts
        (rateLimitMiddleware cfg "production" key t0 store).2).2 hb
  rw [hmid2] at hfstb
  simp only [nextRecord, if_neg (show ¬ tb > t0 + cfg.windowMs by omega)] at hfstb
  have hfull : 1 + ts.length = cfg.maxRequests := by
    simp only [List.length_cons] at hlen; omega
  rw [if_pos (by omega)] at hfstb
  refine ⟨blockResponse cfg tb { count := 1 + ts.length + 1, resetTime := t0 + cfg.windowMs },
    ?_, rfl, rfl, ?_⟩
  · rw [runRequests_cons, runRequests_append, runRequests_cons, runRequests_nil]
    rw [hfst0, hmid1, hfstb]
    rw [← hfull, Nat.add_comm 1 ts.length, List.replicate_succ]
    simp
  · simp only [blockResponse]
    omega

/-- Witness for the C1 amended theorem: the strict preset (10 requests per
15 minutes, statusCode 429) on a fresh key, ten requests at one-second
intervals and an eleventh in the same window. -/
theorem rateLimit_window_admits_then_blocks_witness :
    ∃ resp : RateLimitResponse,
      (runRequests
          { maxRequests := 10, windowMs := 900000,
            message := "Too many authentication attempts, please try again later.",
            statusCode := 429, skipSuccessfulRequests := false }
          "production" "203.0.113.9"
          (0 :: ([1000, 2000, 3000, 4000, 5000, 6000, 7000, 8000, 9000] ++ [10000]))
          clearAllRateLimits).1 =
        List.replicate 10 none ++ [some resp] ∧
      resp.status = 429 ∧
      resp.error = "Too many authentication attempts, please try again later." ∧
      0 < resp.retryAfter :=
  rateLimit_window_admits_then_blocks
    { maxRequests := 10, windowMs := 900000,
      message := "Too many authentication attempts, please try again later.",
      statusCode := 429, skipSuccessfulRequests := false }
    "203.0.113.9" clearAllRateLimits 0
    [1000, 2000, 3000, 4000, 5000, 6000, 7000, 8000, 9000] 10000
    (by decide) (by decide) rfl (by decide) (by decide) (by decide) (by decide)

end RateLimit


namespace RateLimit

/-- C2: on a request that the limiter actually processes (the development
loopback escape hatch does not apply) for a key whose stored window has
expired, the middleware stores a fresh record whose resetTime is now plus
windowMs, returns Continue (given the positive maxRequests the data model
requires), and the stored count is 1. -/
theorem rateLimit_expired_window_resets
    (cfg : RateLimitConfig) (env clientKey : String) (now : Nat) (store : Store)
    (c R : Nat)
    (hb : loopbackBypass env clientKey = false)
    (hs : store clientKey = some { count := c, resetTime := R })
    (hexp : R < now) (hM : 1 ≤ cfg.maxRequests) :
    (rateLimitMiddleware cfg env clientKey now store).1 = none ∧
    (rateLimitMiddleware cfg env clientKey now store).2 clientKey =
      some { count := 1, resetTime := now + cfg.windowMs } := by
  have hfst := middleware_fst cfg env clientKey now store hb
  have hsnd := middleware_snd_key cfg env clientKey now store hb
  rw [hs] at hfst hsnd
  simp only [nextRecord, if_pos hexp] at hfst hsnd
  rw [if_neg (by omega)] at hfst
  exact ⟨hfst, hsnd⟩

/-- Witness for C2: the default policy, a production environment, a stored
record with count 5 that expired at instant 1000, and a request at 2000. -/
theorem rateLimit_expired_window_resets_witness :
    loopbackBypass "production" "198.51.100.7" = false ∧
    ((fun k => if k == "198.51.100.7" then some { count := 5, resetTime := 1000 } else none :
        Store) "198.51.100.7" = some { count := 5, resetTime := 1000 }) ∧
    (1000 : Nat) < 2000 ∧ 1 ≤ DEFAULT_CONFIG.maxRequests ∧
    ((rateLimitMiddleware DEFAULT_CONFIG "production" "198.51.100.7" 2000
        (fun k => if k == "198.51.100.7" then some { count := 5, resetTime := 1000 } else none)).1 =
      none ∧
     (rateLimitMiddleware DEFAULT_CONFIG "production" "198.51.100.7" 2000
        (fun k => if k == "198.51.100.7" then some { count := 5, resetTime := 1000 } else none)).2
        "198.51.100.7" = some { count := 1, resetTime := 2000 + DEFAULT_CONFIG.windowMs }) :=
  ⟨by decide, rfl, by decide, by decide,
    rateLimit_expired_window_resets DEFAULT_CONFIG "production" "198.51.100.7" 2000
      (fun k => if k == "198.51.100.7" then some { count := 5, resetTime := 1000 } else none)
      5 1000 (by decide) rfl (by decide) (by decide)⟩

/-- C6 counterexample: the config of the source has no bypassLoopbackInDev
option, and the loopback escape hatch does not consult the closest
candidate flag, skipSuccessfulRequests. With that flag unset (false), in
the development environment with the loopback key, the middleware still
returns Continue and leaves the store untouched (no record is created), so
the bypass fires although the option is not set. -/
theorem loopback_bypass_ignores_config_flag :
    ({ maxRequests := 100, windowMs := 900000, message := "m", statusCode := 429,
       skipSuccessfulRequests := false } : RateLimitConfig).skipSuccessfulRequests = false ∧
    (rateLimitMiddleware
        { maxRequests := 100, windowMs := 900000, message := "m", statusCode := 429,
          skipSuccessfulRequests := false }
        "development" "127.0.0.1" 2000 clearAllRateLimits).1 = none ∧
    (rateLimitMiddleware
        { maxRequests := 100, windowMs := 900000, message := "m", statusCode := 429,
          skipSuccessfulRequests := false }
        "development" "127.0.0.1" 2000 clearAllRateLimits).2 "127.0.0.1" = none :=
  ⟨rfl, rfl, rfl⟩

/-- C6 (amended): the escape hatch fires, returning Continue while leaving
the stored state of the key unchanged, exactly when the environment is
development and the resolved key is 127.0.0.1, ::1 or unknown, irrespective
of any policy option; with any other environment, in particular production,
it never fires. -/
theorem loopback_bypass_characterization
    (cfg : RateLimitConfig) (env clientKey : String) (now : Nat) (store : Store) :
    ((rateLimitMiddleware cfg env clientKey now store).1 = none ∧
     (rateLimitMiddleware cfg env clientKey now store).2 clientKey = store clientKey)
    ↔ (env = "development" ∧
        (clientKey = "127.0.0.1" ∨ clientKey = "::1" ∨ clientKey = "unknown")) := by
  by_cases hb : loopbackBypass env clientKey = true
  · have hmw : rateLimitMiddleware cfg env clientKey now store = (none, store) := by
      unfold rateLimitMiddleware
      rw [hb]
      simp
    have hprop : env = "development" ∧
        (clientKey = "127.0.0.1" ∨ clientKey = "::1" ∨ clientKey = "unknown") := by
      simp only [loopbackBypass, Bool.and_eq_true, Bool.or_eq_true, beq_iff_eq] at hb
      tauto
    exact iff_of_true (by rw [hmw]; exact ⟨rfl, rfl⟩) hprop
  · have hb' : loopbackBypass env clientKey = false := by
      simpa using hb
    have hprop : ¬ (env = "development" ∧
        (clientKey = "127.0.0.1" ∨ clientKey = "::1" ∨ clientKey = "unknown")) := by
      rintro ⟨h1, h2⟩
      subst h1
      rcases h2 with h | h | h <;> subst h <;> exact absurd hb' (by decide)
    have hchange : ¬ ((rateLimitMiddleware cfg env clientKey now store).1 = none ∧
        (rateLimitMiddleware cfg env clientKey now store).2 clientKey = store clientKey) := by
      rintro ⟨-, h2⟩
      have hsnd := middleware_snd_key cfg env clientKey now store hb'
      rw [hsnd] at h2
      match hs : store clientKey with
      | none => rw [hs] at h2; exact Option.noConfusion h2
      | some r =>
          rw [hs] at h2
          by_cases he : now > r.resetTime
          · rw [show nextRecord cfg now (some r) =
                { count := 1, resetTime := now + cfg.windowMs } by
                simp [nextRecord, if_pos he]] at h2
            have := Option.some.inj h2
            have hre : now + cfg.windowMs = r.resetTime := congrArg RequestRecord.resetTime this
            omega
          · rw [show nextRecord cfg now (some r) =
                { count := r.count + 1, resetTime := r.resetTime } by
                simp [nextRecord, if_neg he]] at h2
            have := Option.some.inj h2
            have hco : r.count + 1 = r.count := congrArg RequestRecord.count this
            omega
    exact iff_of_false hchange hprop

end RateLimit

namespace RateLimit

/-- C10: resetting the rate limit of one client key makes its status query
return none, and the status of every other key is unchanged. -/
theorem resetRateLimit_frame (store : Store) (clientKey other : String) :
    getRateLimitStatus (resetRateLimit store clientKey) clientKey = none ∧
    (other ≠ clientKey →
      getRateLimitStatus (resetRateLimit store clientKey) other =
        getRateLimitStatus store other) := by
  constructor
  · simp [getRateLimitStatus, resetRateLimit]
  · intro h
    simp [getRateLimitStatus, resetRateLimit, h]

/-- Witness for C10: a store holding two keys; resetting the first removes
it and leaves the second intact. -/
theorem resetRateLimit_frame_witness :
    ("10.0.0.2" : String) ≠ "10.0.0.1" ∧
    getRateLimitStatus
      (resetRateLimit
        (fun k =>
          if k == "10.0.0.1" then some { count := 3, resetTime := 500 }
          else if k == "10.0.0.2" then some { count := 7, resetTime := 900 } else none)
        "10.0.0.1") "10.0.0.1" = none ∧
    getRateLimitStatus
      (resetRateLimit
        (fun k =>
          if k == "10.0.0.1" then some { count := 3, resetTime := 500 }
          else if k == "10.0.0.2" then some { count := 7, resetTime := 900 } else none)
        "10.0.0.1") "10.0.0.2" =
      getRateLimitStatus
        (fun k =>
          if k == "10.0.0.1" then some { count := 3, resetTime := 500 }
          else if k == "10.0.0.2" then some { count := 7, resetTime := 900 } else none)
        "10.0.0.2" :=
  ⟨by decide,
    (resetRateLimit_frame _ "10.0.0.1" "10.0.0.2").1,
    (resetRateLimit_frame _ "10.0.0.1" "10.0.0.2").2 (by decide)⟩

end RateLimit


namespace Validation

/-- C3: the body validator is a total function (no exception crosses its
boundary), and its outcome is exactly one of the four request-scoped
values: 400 invalid JSON when the body parse throws, Valid data when the
schema accepts, 400 with a details array listing every issue of the
ZodError as a dotted-path field with its message, and the generic 500 for
any other internal exception. -/
theorem createValidator_outcomes {T : Type} (schema : Json → ZodParse T) (req : HttpRequest) :
    (req.jsonBody = BodyParse.throws →
      createValidator schema req =
        .errorResponse { status := 400, error := "Invalid JSON in request body", details := none }) ∧
    (∀ body t, req.jsonBody = BodyParse.ok body → schema body = ZodParse.ok t →
      createValidator schema req = .valid t) ∧
    (∀ body issues, req.jsonBody = BodyParse.ok body → schema body = ZodParse.zodError issues →
      createValidator schema req =
        .errorResponse
          { status := 400, error := "Validation failed",
            details := some (issues.map fun i =>
              { field := String.intercalate "." i.path, message := i.message }) }) ∧
    (∀ body, req.jsonBody = BodyParse.ok body → schema body = ZodParse.throws →
      createValidator schema req =
        .errorResponse { status := 500, error := "Internal validation error", details := none }) := by
  refine ⟨?_, ?_, ?_, ?_⟩
  · intro h
    simp [createValidator, h]
  · intro body t h1 h2
    simp [createValidator, h1, h2]
  · intro body issues h1 h2
    simp [createValidator, formatZodErrors, h1, h2]
  · intro body h1 h2
    simp [createValidator, h1, h2]

/-- Witness for C3: a schema rejecting with two issues produces the 400
response whose details list both violated fields, not just the first. -/
theorem createValidator_outcomes_witness :
    ({ jsonBody := BodyParse.ok Json.null, contentLength := none, bodyByteSize := 0,
       query := [] } : HttpRequest).jsonBody = BodyParse.ok Json.null ∧
    (fun _ : Json => (ZodParse.zodError
        [{ path := ["email"], message := "Required" },
         { path := ["address", "city"], message := "Too small" }] : ZodParse Unit)) Json.null =
      ZodParse.zodError
        [{ path := ["email"], message := "Required" },
         { path := ["address", "city"], message := "Too small" }] ∧
    createValidator
        (fun _ : Json => (ZodParse.zodError
          [{ path := ["email"], message := "Required" },
           { path := ["address", "city"], message := "Too small" }] : ZodParse Unit))
        { jsonBody := BodyParse.ok Json.null, contentLength := none, bodyByteSize := 0,
          query := [] } =
      .errorResponse
        { status := 400, error := "Validation failed",
          details := some [{ field := "email", message := "Required" },
                           { field := "address.city", message := "Too small" }] } :=
  ⟨rfl, rfl,
    (createValidator_outcomes
        (fun _ : Json => (ZodParse.zodError
          [{ path := ["email"], message := "Required" },
           { path := ["address", "city"], message := "Too small" }] : ZodParse Unit))
        { jsonBody := BodyParse.ok Json.null, contentLength := none, bodyByteSize := 0,
          query := [] }).2.2.1 Json.null _ rfl rfl⟩

/-- C4: the combinator returns Continue on the empty list, returns the
result of the first validation that fails regardless of what comes after
it, and returns Continue exactly when every validation in the list returns
Continue. -/
theorem combineValidations_first_failure {Req Resp : Type} (req : Req) :
    (combineValidations ([] : List (Req → Option Resp)) req = none) ∧
    (∀ (pre : List (Req → Option Resp)) (g : Req → Option Resp)
        (post : List (Req → Option Resp)) (r : Resp),
      (∀ v ∈ pre, v req = none) → g req = some r →
      combineValidations (pre ++ g :: post) req = some r) ∧
    (∀ vs : List (Req → Option Resp),
      combineValidations vs req = none ↔ ∀ v ∈ vs, v req = none) := by
  refine ⟨rfl, ?_, ?_⟩
  · intro pre g post r hpre hg
    induction pre with
    | nil => simp [combineValidations, hg]
    | cons v vs ih =>
        have hv : v req = none := hpre v (by simp)
        simp only [List.cons_append, combineValidations, hv]
        exact ih fun u hu => hpre u (by simp [hu])
  · intro vs
    induction vs with
    | nil => simp [combineValidations]
    | cons v vs ih =>
        cases hv : v req with
        | some r =>
            simp only [combineValidations, hv]
            constructor
            · intro h
              exact Option.noConfusion h
            · intro h
              have := h v (by simp)
              rw [hv] at this
              exact Option.noConfusion this
        | none =>
            simp only [combineValidations, hv]
            rw [ih]
            constructor
            · intro h u hu
              rcases List.mem_cons.mp hu with h1 | h2
              · rw [h1]; exact hv
              · exact h u h2
            · intro h u hu
              exact h u (List.mem_cons_of_mem v hu)

/-- Witness for C4: three validations where the second fails; the combined
result is the failure of the second, and the always-failing third is never
reached. -/
theorem combineValidations_first_failure_witness :
    (∀ v ∈ [fun _ : Nat => (none : Option Nat)], v 5 = none) ∧
    (fun n : Nat => some (n + 1)) 5 = some 6 ∧
    combineValidations
      [fun _ : Nat => (none : Option Nat), fun n => some (n + 1), fun _ => some 99] 5 =
      some 6 :=
  ⟨by simp, rfl,
    (combineValidations_first_failure 5).2.1 [fun _ => none] (fun n => some (n + 1))
      [fun _ => some 99] 6 (by simp) rfl⟩

/-- C7: validatePagination always returns a fully-defined clamped result:
page is at least 1, limit lies between 1 and 100, offset is computed from
the returned page and limit, and the three example inputs of the claim
return their stated results. -/
theorem validatePagination_clamped (page limit : JsInput) :
    1 ≤ (validatePagination page limit).page ∧
    1 ≤ (validatePagination page limit).limit ∧
    (validatePagination page limit).limit ≤ 100 ∧
    (validatePagination page limit).offset =
      ((validatePagination page limit).page - 1) * (validatePagination page limit).limit ∧
    validatePagination JsInput.undef JsInput.undef =
      { page := 1, limit := 10, offset := 0 } ∧
    validatePagination (JsInput.num 0) (JsInput.num 500) =
      { page := 1, limit := 100, offset := 0 } ∧
    validatePagination (JsInput.str "abc") (JsInput.str "abc") =
      { page := 1, limit := 10, offset := 0 } := by
  refine ⟨le_max_left _ _, le_min (by norm_num) (le_max_left _ _), min_le_left _ _, rfl,
    by decide, by decide, by decide⟩

/-- C8: the query validator feeds the schema exactly the coerced record,
and the per-value coercion maps each value whose Number conversion is not
NaN to that number, the exact strings true and false (whose Number
conversion is NaN) to booleans, and every other value to itself as a
string. -/
theorem validateQueryParams_coercion (T : Type) (req : HttpRequest) :
    (∀ s1 s2 : List (String × QueryVal) → ZodParse T,
      s1 (coerceQueryParams req.query) = s2 (coerceQueryParams req.query) →
      validateQueryParams s1 req = validateQueryParams s2 req) ∧
    coerceQueryParams req.query = req.query.map (fun kv => (kv.1, coerceQueryValue kv.2)) ∧
    (∀ v n, jsNumberOfString v = some n → coerceQueryValue v = QueryVal.num n) ∧
    (jsNumberOfString "true" = none ∧ coerceQueryValue "true" = QueryVal.bool true) ∧
    (jsNumberOfString "false" = none ∧ coerceQueryValue "false" = QueryVal.bool false) ∧
    (∀ v, jsNumberOfString v = none → v ≠ "true" → v ≠ "false" →
      coerceQueryValue v = QueryVal.str v) := by
  refine ⟨?_, rfl, ?_, ⟨by decide, by decide⟩, ⟨by decide, by decide⟩, ?_⟩
  · intro s1 s2 h
    unfold validateQueryParams
    rw [h]
  · intro v n h
    simp [coerceQueryValue, h]
  · intro v h h1 h2
    simp [coerceQueryValue, h, h1, h2]

/-- Witness for C8: the value flag is not numeric-looking and is neither
true nor false, so it stays a string. -/
theorem validateQueryParams_coercion_witness :
    jsNumberOfString "flag" = none ∧ ("flag" : String) ≠ "true" ∧
    ("flag" : String) ≠ "false" ∧ coerceQueryValue "flag" = QueryVal.str "flag" :=
  ⟨by decide, by decide, by decide,
    (validateQueryParams_coercion Unit
        { jsonBody := BodyParse.throws, contentLength := none, bodyByteSize := 0,
          query := [] }).2.2.2.2.2 "flag" (by decide) (by decide) (by decide)⟩

/-- C9: with no content-length header the size guard returns Continue
whatever the actual body size is; the guard never reads the body, and a 413
Block arises only when the header is present and parses to a value strictly
above maxSizeBytes. -/
theorem validateRequestSize_requires_header (maxSizeBytes : Nat) (req : HttpRequest) :
    (req.contentLength = none → validateRequestSize maxSizeBytes req = none) ∧
    (∀ n : Nat, validateRequestSize maxSizeBytes { req with bodyByteSize := n } =
      validateRequestSize maxSizeBytes req) ∧
    (∀ resp, validateRequestSize maxSizeBytes req = some resp →
      resp.status = 413 ∧
      ∃ s n, req.contentLength = some s ∧ parseIntTen s = some n ∧ (maxSizeBytes : Int) < n) := by
  refine ⟨?_, ?_, ?_⟩
  · intro h
    simp [validateRequestSize, h]
  · intro n
    rfl
  · intro resp h
    unfold validateRequestSize at h
    split at h
    · exact Option.noConfusion h
    · rename_i s hcl
      split at h
      · exact Option.noConfusion h
      · split at h
        · rename_i n hp
          split at h
          · rename_i hn
            have hinj := Option.some.inj h
            exact ⟨by rw [← hinj], s, n, hcl, hp, hn⟩
          · exact Option.noConfusion h
        · exact Option.noConfusion h

/-- Witness for C9: a request whose actual body is two megabytes but whose
content-length header is absent passes the one-megabyte guard. -/
theorem validateRequestSize_requires_header_witness :
    ({ jsonBody := BodyParse.throws, contentLength := none, bodyByteSize := 2097152,
       query := [] } : HttpRequest).contentLength = none ∧
    validateRequestSize 1048576
      { jsonBody := BodyParse.throws, contentLength := none, bodyByteSize := 2097152,
        query := [] } = none :=
  ⟨rfl,
    (validateRequestSize_requires_header 1048576
      { jsonBody := BodyParse.throws, contentLength := none, bodyByteSize := 2097152,
        query := [] }).1 rfl⟩

end Validation

